import Mathlib

/-!
# Schedule-table derivation engine of `app.py`

Shallow embedding of the core of the task-tracking dashboard:
`load_tasks` (date/offset normalization), `build_schedule_table`
(daily gantt grid), `build_schedule_table_weekly` (weekly grid) and the
list-view numbering.

Modelling conventions:
* Calendar dates are encoded as integers counting days, with the project
  epoch `PROJECT_START = date(2025, 11, 25)` at `0`.  The code only ever
  uses date differences in days and "epoch + k days", so this linear
  encoding is exact.  `BASE_END = date(2026, 3, 31)` is 126 days after the
  epoch.  Example: 2025-12-05 is day 10, 2025-12-01 is day 6.
* `pd.to_numeric(..., errors="coerce")` / `pd.to_datetime(..., errors="coerce")`
  cells are modelled as `Option Int`: `some v` when the raw cell parses,
  `none` for NaN/NaT (blank or unparseable raw values).
* A pandas DataFrame built from `ws.get_all_records()` has a column iff the
  sheet has that header; accessing a missing column with `df["c"]` raises
  `KeyError` while `df.get("c")` / `row.get("c", d)` does not.  A raw table
  is therefore a list of records together with per-column presence flags,
  and `load_tasks` returns `Except String _`, erroring exactly where the
  Python raises.
* Column-name mapping (the source uses Japanese headers):
  `Day` = Day, `startDay` = 開始Day, `endDay` = 終了Day,
  `startDate` = 開始日, `endDate` = 終了日, `status` = ステータス,
  `phase` = Phase, `title` = タスク名, `category` = カテゴリ,
  `owner` = 担当.  Status literals: "未着手" not-started, "進行中"
  in-progress, "完了" done.  Markers: "✔" done, "●" point, "■" span.
-/

/-- `PROJECT_START = date(2025, 11, 25)`: Day 1 of the schedule, encoded as
day number 0. -/
def PROJECT_START : Int := 0

/-- `BASE_END = date(2026, 3, 31)`: default end of the displayed window,
126 days after the epoch. -/
def BASE_END : Int := 126

/-- `MAX_SCHEDULE_DAYS = 180`: maximum number of displayed days. -/
def MAX_SCHEDULE_DAYS : Int := 180

/-- `Series.clip(lower=1, upper=MAX_SCHEDULE_DAYS)` on one value. -/
def clipDay (n : Int) : Int := max 1 (min n MAX_SCHEDULE_DAYS)

/-- One record of `ws.get_all_records()` after cell parsing: numeric cells
through `pd.to_numeric(errors="coerce")` and date cells through
`pd.to_datetime(errors="coerce")` are `Option Int` (`none` = NaN/NaT);
text cells are the raw strings ("" for a blank cell). -/
structure RawRecord where
  Day : Option Int
  startDay : Option Int
  endDay : Option Int
  startDate : Option Int
  endDate : Option Int
  status : String
  phase : String
  title : String
  category : String
  owner : String
deriving DecidableEq, Repr

/-- The sheet contents: per-column presence flags (a DataFrame built from
`get_all_records` has a column iff the sheet has the header) plus the
records.  A record's field is only meaningful when the column is present. -/
structure RawTable where
  hasDay : Bool
  hasStartDay : Bool
  hasEndDay : Bool
  hasStartDate : Bool
  hasEndDate : Bool
  hasStatus : Bool
  hasPhase : Bool
  hasTitle : Bool
  hasCategory : Bool
  hasOwner : Bool
  rows : List RawRecord
deriving DecidableEq, Repr

/-- One row of the DataFrame returned by `load_tasks`: numeric Day columns
are filled and clipped, date columns may still be NaT (`none`) when an
explicit date column was present but unparseable, and `category`/`owner`
columns may be absent altogether (`none`), which downstream
`row.get(col, "")` reads as "". -/
structure TaskRec where
  Day : Int
  startDay : Int
  endDay : Int
  startDate : Option Int
  endDate : Option Int
  status : String
  phase : String
  title : String
  category : Option String
  owner : Option String
deriving DecidableEq, Repr

/-- The per-record transformation inside `load_tasks` (lines 326-365):
status blank → "未着手"; `Day` from `df.get("Day")`; `開始Day`/`終了Day`
default to the (unfilled) `Day` column when absent; fill `Day` with 1,
`開始Day` with the filled `Day`, `終了Day` with the filled `開始Day`; clip
all three to `[1, MAX_SCHEDULE_DAYS]`; `開始日` parsed when the column is
present, else derived as `PROJECT_START + (開始Day − 1)`; `終了日` parsed
when present, else a copy of `開始日`. -/
def normalizeRaw (t : RawTable) (r : RawRecord) : TaskRec :=
  let Day0 : Option Int := if t.hasDay then r.Day else none
  let startDay0 : Option Int := if t.hasStartDay then r.startDay else Day0
  let endDay0 : Option Int := if t.hasEndDay then r.endDay else Day0
  let Day1 : Int := Day0.getD 1
  let startDay1 : Int := startDay0.getD Day1
  let endDay1 : Int := endDay0.getD startDay1
  let Day2 : Int := clipDay Day1
  let startDay2 : Int := clipDay startDay1
  let endDay2 : Int := clipDay endDay1
  let startDate : Option Int :=
    if t.hasStartDate then r.startDate else some (PROJECT_START + (startDay2 - 1))
  let endDate : Option Int := if t.hasEndDate then r.endDate else startDate
  { Day := Day2, startDay := startDay2, endDay := endDay2,
    startDate := startDate, endDate := endDate,
    status := if r.status = "" then "未着手" else r.status,
    phase := r.phase, title := r.title,
    category := if t.hasCategory then some r.category else none,
    owner := if t.hasOwner then some r.owner else none }

/-- `load_tasks` (lines 310-367).  An empty sheet yields the empty frame
built with the full column list, so the column accesses succeed and the
result is empty.  On a non-empty frame, `df["ステータス"]` (line 326),
`df["Phase"]` (line 364) and `df["タスク名"]` (line 365) raise `KeyError`
when the column is absent — in that textual order, since the numeric/date
steps in between never raise. -/
def load_tasks (t : RawTable) : Except String (List TaskRec) :=
  if t.rows.isEmpty then .ok []
  else if !t.hasStatus then .error "KeyError: ステータス"
  else if !t.hasPhase then .error "KeyError: Phase"
  else if !t.hasTitle then .error "KeyError: タスク名"
  else .ok (t.rows.map (normalizeRaw t))

/-- A task inside `build_schedule_table` after lines 483-498: dates
resolved (`開始日` NaT → `PROJECT_START`, `終了日` NaT → `開始日`,
then `終了日 < 開始日` coerced to `開始日`) and the Day offsets recomputed
from them, clipped. -/
structure NTask where
  phase : String
  category : Option String
  title : String
  owner : Option String
  status : String
  startDate : Int
  endDate : Int
  startDay : Int
  endDay : Int
deriving DecidableEq, Repr

/-- Lines 483-498 of `build_schedule_table`, for one record. -/
def resolveDaily (t : TaskRec) : NTask :=
  let s : Int := t.startDate.getD PROJECT_START
  let e0 : Int := t.endDate.getD s
  let e : Int := if e0 < s then s else e0
  { phase := t.phase, category := t.category, title := t.title,
    owner := t.owner, status := t.status,
    startDate := s, endDate := e,
    startDay := clipDay (s - PROJECT_START + 1),
    endDay := clipDay (e - PROJECT_START + 1) }

/-- The ascending sort key of line 513:
`df.sort_values(["開始日", "Phase", "タスク名"])` — lexicographic on
(start date, phase, title), where Python compares strings by code points
exactly as the `String` linear order does. -/
def dailyLe (a b : NTask) : Prop :=
  a.startDate < b.startDate ∨
    (a.startDate = b.startDate ∧
      (a.phase < b.phase ∨ (a.phase = b.phase ∧ a.title ≤ b.title)))

instance (a b : NTask) : Decidable (dailyLe a b) := by
  unfold dailyLe; infer_instance

/-- Boolean comparator used to run the sort. -/
def dailyLE (a b : NTask) : Bool := decide (dailyLe a b)

/-- Python `str.strip()`: drop ASCII whitespace from both ends (structural
recursion on the character list, so that it evaluates in the kernel). -/
def pyStrip (s : String) : String :=
  ⟨((s.data.dropWhile Char.isWhitespace).reverse.dropWhile Char.isWhitespace).reverse⟩

/-- One row of the resulting schedule DataFrame: the fixed leading columns
(`No.`, Phase, カテゴリ, タスク名, 担当, ステータス, 開始日, 終了日)
followed by the day (or week) cells in chronological order. -/
structure SRow where
  no : Nat
  phase : String
  category : String
  title : String
  owner : String
  status : String
  startDate : Int
  endDate : Int
  cells : List String
deriving DecidableEq, Repr

/-- Daily marker selection (lines 539-543): "✔" for a done task on every
day in range, else "●" for a one-day task and "■" for a span. -/
def markOf (t : NTask) : String :=
  if pyStrip t.status = "完了" then "✔"
  else if t.startDay = t.endDay then "●" else "■"

/-- Lines 517-548: build the `row_data` mapping for one record of the
(sorted, numbered) frame.  `status` is `.strip()`ped; cell `idx` is marked
iff `start_idx <= idx <= end_idx` with `start_idx = 開始Day − 1`,
`end_idx = 終了Day − 1`. -/
def mkRow (numDays : Nat) (no : Nat) (t : NTask) : SRow :=
  { no := no, phase := t.phase, category := t.category.getD "",
    title := t.title, owner := t.owner.getD "", status := pyStrip t.status,
    startDate := t.startDate, endDate := t.endDate,
    cells := (List.range numDays).map fun (idx : Nat) =>
      if t.startDay - 1 ≤ (idx : Int) ∧ (idx : Int) ≤ t.endDay - 1 then markOf t else "" }

/-- The `for _, row in df.iterrows()` loop over the numbered frame: the
`no`-th row first, counting up.  Shared by both builders via the
row-construction function `mk`. -/
def numberedRows {β γ : Type} (mk : Nat → β → γ) : Nat → List β → List γ
  | _, [] => []
  | no, t :: ts => mk no t :: numberedRows mk (no + 1) ts

/-- `Series.max()` of a non-empty numeric column. -/
def colMax : List Int → Int
  | [] => 0
  | x :: xs => xs.foldl max x

/-- Line 500-501: `max_end_day = min(int(df["終了Day"].max()), MAX_SCHEDULE_DAYS)`. -/
def max_end_day_of (df : List TaskRec) : Int :=
  min (colMax ((df.map resolveDaily).map (·.endDay))) MAX_SCHEDULE_DAYS

/-- Lines 503-506: `dynamic_end = max(BASE_END, PROJECT_START + timedelta(days=max_end_day - 1))`. -/
def dynamic_end_of (df : List TaskRec) : Int :=
  max BASE_END (PROJECT_START + (max_end_day_of df - 1))

/-- Line 508: `num_days = (dynamic_end - PROJECT_START).days + 1`. -/
def num_days_of (df : List TaskRec) : Nat :=
  (dynamic_end_of df - PROJECT_START + 1).toNat

/-- Line 509: `date_list = [PROJECT_START + timedelta(days=i) for i in range(num_days)]`,
the dates labelling the day columns. -/
def date_list_of (df : List TaskRec) : List Int :=
  if df.isEmpty then []
  else (List.range (num_days_of df)).map fun (i : Nat) => PROJECT_START + (i : Int)

/-- `build_schedule_table` (lines 471-554): empty frame for empty input;
otherwise normalize dates and offsets, size the window, sort by
(開始日, Phase, タスク名), number the rows 1.. and emit one marked row per
record. -/
def build_schedule_table (df : List TaskRec) : List SRow :=
  if df.isEmpty then []
  else
    let nts := df.map resolveDaily
    numberedRows (fun no t => mkRow (num_days_of df) no t) 1 (nts.mergeSort dailyLE)

/-- A task inside `build_schedule_table_weekly` after lines 562-569: dates
resolved (no inversion coercion here!) and 1-based week numbers computed
with Python floor division: `(d - PROJECT_START).days // 7 + 1`. -/
structure WTask where
  phase : String
  category : Option String
  title : String
  owner : Option String
  status : String
  startDate : Int
  endDate : Int
  startWeek : Int
  endWeek : Int
deriving DecidableEq, Repr

/-- Lines 562-569 of `build_schedule_table_weekly`, for one record. -/
def resolveWeekly (t : TaskRec) : WTask :=
  let s : Int := t.startDate.getD PROJECT_START
  let e : Int := t.endDate.getD s
  { phase := t.phase, category := t.category, title := t.title,
    owner := t.owner, status := t.status,
    startDate := s, endDate := e,
    startWeek := (s - PROJECT_START).fdiv 7 + 1,
    endWeek := (e - PROJECT_START).fdiv 7 + 1 }

/-- Line 571 sort key: `df.sort_values(["開始Week", "Phase"])` — no title
tie-break, unlike the daily builder. -/
def weeklyLe (a b : WTask) : Prop :=
  a.startWeek < b.startWeek ∨ (a.startWeek = b.startWeek ∧ a.phase ≤ b.phase)

instance (a b : WTask) : Decidable (weeklyLe a b) := by
  unfold weeklyLe; infer_instance

/-- Boolean comparator used to run the weekly sort. -/
def weeklyLE (a b : WTask) : Bool := decide (weeklyLe a b)

/-- Line 574: `max_week = int(df["終了Week"].max())` (taken over all
records; the sort just before it does not change the maximum). -/
def max_week_of (df : List TaskRec) : Int :=
  colMax ((df.map resolveWeekly).map (·.endWeek))

/-- Weekly marker selection (line 592): "✔" for a done task, else a
uniform "■" (no point marker at weekly granularity). -/
def markOfW (t : WTask) : String :=
  if pyStrip t.status = "完了" then "✔" else "■"

/-- Month and day-of-month of a Gregorian date given as a count of days
since 1970-01-01 (the standard civil-from-days integer algorithm,
restricted to the fields the weekly labels need). -/
def monthDayOfDays (days : Nat) : Nat × Nat :=
  let z := days + 719468
  let doe := z % 146097
  let yoe := (doe - doe / 1460 + doe / 36524 - doe / 146096) / 365
  let doy := doe - (365 * yoe + yoe / 4 - yoe / 100)
  let mp := (5 * doy + 2) / 153
  let d := doy - (153 * mp + 2) / 5 + 1
  let m := if mp < 10 then mp + 3 else mp - 9
  (m, d)

/-- `PROJECT_START = date(2025, 11, 25)` is day 20417 counted from
1970-01-01. -/
def epochDays : Nat := 20417

/-- Lines 577-584: the column label of week index `w` (0-based),
`f"{month}月{week_of_month}週目"` where `week_start = PROJECT_START +
timedelta(days=w * 7)` and `week_of_month = (week_start.day - 1) // 7 + 1`.
These labels are NOT all distinct: they repeat after 52 weeks (both week 0,
2025-11-25, and week 52, 2026-11-24, are "11月4週目"). -/
def weekLabel (w : Nat) : String :=
  let md := monthDayOfDays (epochDays + 7 * w)
  toString md.1 ++ "月" ++ toString ((md.2 - 1) / 7 + 1) ++ "週目"

/-- `row_data[label] = v`: Python-dict assignment on an association list —
an existing key keeps its position and gets the new value, a new key is
appended. -/
def dictUpsert (l : List (String × String)) (k v : String) : List (String × String) :=
  if l.any (fun p => p.1 = k) then
    l.map fun p => if p.1 = k then (p.1, v) else p
  else l ++ [(k, v)]

/-- The `for w, label in enumerate(week_labels): row_data[label] = ...`
loop, starting at week index `w` with the dict built so far. -/
def buildCells (v : Nat → String) : Nat → List String → List (String × String) → List (String × String)
  | _, [], acc => acc
  | w, L :: ls, acc => buildCells v (w + 1) ls (dictUpsert acc L (v w))

/-- The week columns of one weekly row: label/value pairs in first-insertion
order, later writes to a repeated label overwriting the earlier value —
exactly the dict `row_data` restricted to the label keys.  (No week label
can collide with a fixed column name, so the fixed columns stay separate.) -/
def weekCells (labels : List String) (v : Nat → String) : List (String × String) :=
  buildCells v 0 labels []

/-- One row of the weekly schedule DataFrame: the fixed leading columns and
then one (label, cell) pair per week column of the frame. -/
structure WRow where
  no : Nat
  phase : String
  category : String
  title : String
  owner : String
  status : String
  startDate : Int
  endDate : Int
  cells : List (String × String)
deriving DecidableEq, Repr

/-- Lines 587-608: one `row_data` of the weekly grid.  `week_labels` has
one entry per `w in range(max_week)` (none for a non-positive `max_week`,
exactly as Python `range`); cell `w` is marked iff
`(start_w - 1) <= w <= (end_w - 1)`, and duplicate labels collapse through
the dict semantics of `row_data`. -/
def mkRowW (labels : List String) (no : Nat) (t : WTask) : WRow :=
  { no := no, phase := t.phase, category := t.category.getD "",
    title := t.title, owner := t.owner.getD "", status := pyStrip t.status,
    startDate := t.startDate, endDate := t.endDate,
    cells := weekCells labels fun (w : Nat) =>
      if t.startWeek - 1 ≤ (w : Int) ∧ (w : Int) ≤ t.endWeek - 1 then markOfW t else "" }

/-- Line 576-584: `week_labels`, one label per week index in
`range(max_week)`. -/
def week_labels_of (df : List TaskRec) : List String :=
  (List.range (max_week_of df).toNat).map weekLabel

/-- `build_schedule_table_weekly` (lines 557-613). -/
def build_schedule_table_weekly (df : List TaskRec) : List WRow :=
  if df.isEmpty then []
  else
    let wts := df.map resolveWeekly
    numberedRows (fun no t => mkRowW (week_labels_of df) no t) 1
      (wts.mergeSort weeklyLE)

/-- One row of the list view (lines 880-886): display number `no`
(= position + 1), the positional back-reference `origIndex` into the
filtered frame, and the record itself. -/
structure ListRow where
  no : Nat
  origIndex : Nat
  task : TaskRec
deriving DecidableEq, Repr

/-- Lines 880-886: `list_df = view_df.reset_index()` keeps the positional
index as `_orig_index` and a fresh `No.` column `1..len` is inserted. -/
def list_view (view_df : List TaskRec) : List ListRow :=
  ((List.range view_df.length).zip view_df).map fun p =>
    { no := p.1 + 1, origIndex := p.1, task := p.2 }

/-- The fixed leading fields of a schedule row, used to compare output rows
with the records they were built from. -/
def SRow.fields (r : SRow) : String × String × String × String × String × Int × Int :=
  (r.phase, r.category, r.title, r.owner, r.status, r.startDate, r.endDate)

/-- The same fields as read off a daily-normalized record. -/
def NTask.fields (t : NTask) : String × String × String × String × String × Int × Int :=
  (t.phase, t.category.getD "", t.title, t.owner.getD "", pyStrip t.status,
    t.startDate, t.endDate)

/-- The same fields as read off a weekly-normalized record. -/
def WTask.fields (t : WTask) : String × String × String × String × String × Int × Int :=
  (t.phase, t.category.getD "", t.title, t.owner.getD "", pyStrip t.status,
    t.startDate, t.endDate)

/-- The daily sort key, read off an output row (rows keep the resolved
start date, phase and title the sort used). -/
def rowLe (a b : SRow) : Prop :=
  a.startDate < b.startDate ∨
    (a.startDate = b.startDate ∧
      (a.phase < b.phase ∨ (a.phase = b.phase ∧ a.title ≤ b.title)))

/-! ## Concrete inputs used as test vectors -/

/-- Scenario C input: start 2025-12-05 (day 10), end 2025-12-01 (day 6) —
an inverted date range. -/
def invTask : TaskRec :=
  { Day := 1, startDay := 11, endDay := 7,
    startDate := some 10, endDate := some 6,
    status := "進行中", phase := "Phase1-設計", title := "物件契約",
    category := some "物件", owner := some "店長" }

/-- A sheet whose ステータス column is missing (all other recognized
columns present), with one data row. -/
def noStatusTable : RawTable :=
  { hasDay := true, hasStartDay := true, hasEndDay := true,
    hasStartDate := true, hasEndDate := true,
    hasStatus := false, hasPhase := true, hasTitle := true,
    hasCategory := true, hasOwner := true,
    rows := [{ Day := some 1, startDay := some 1, endDay := some 2,
               startDate := some 0, endDate := some 1,
               status := "未着手", phase := "Phase1-設計", title := "コンセプト決定",
               category := "開業計画", owner := "店長" }] }

/-- A sheet with only the ステータス / Phase / タスク名 columns present and
one row whose numeric and date cells are all unparseable (NaN/NaT) and
whose status cell is blank. -/
def minimalTable : RawTable :=
  { hasDay := false, hasStartDay := false, hasEndDay := false,
    hasStartDate := false, hasEndDate := false,
    hasStatus := true, hasPhase := true, hasTitle := true,
    hasCategory := false, hasOwner := false,
    rows := [{ Day := none, startDay := none, endDay := none,
               startDate := none, endDate := none,
               status := "", phase := "Phase2-構築", title := "データ作成",
               category := "", owner := "" }] }

/-- A sheet carrying both an explicit 開始日 column (= the epoch) and a
開始Day column (= 5) that disagree. -/
def conflictTable : RawTable :=
  { hasDay := false, hasStartDay := true, hasEndDay := false,
    hasStartDate := true, hasEndDate := false,
    hasStatus := true, hasPhase := true, hasTitle := true,
    hasCategory := true, hasOwner := true,
    rows := [{ Day := none, startDay := some 5, endDay := none,
               startDate := some PROJECT_START, endDate := none,
               status := "未着手", phase := "Phase1-設計", title := "物件内見",
               category := "物件", owner := "店長" }] }

/-- The record `load_tasks` produces for `conflictTable`. -/
def conflictRec : TaskRec :=
  { Day := 1, startDay := 5, endDay := 5,
    startDate := some 0, endDate := some 0,
    status := "未着手", phase := "Phase1-設計", title := "物件内見",
    category := some "物件", owner := some "店長" }

/-- Scenario D input: 開始Day requested at 500, no other Day/date columns. -/
def day500Table : RawTable :=
  { hasDay := false, hasStartDay := true, hasEndDay := false,
    hasStartDate := false, hasEndDate := false,
    hasStatus := true, hasPhase := true, hasTitle := true,
    hasCategory := true, hasOwner := true,
    rows := [{ Day := none, startDay := some 500, endDay := none,
               startDate := none, endDate := none,
               status := "進行中", phase := "Phase3-実装", title := "撮影",
               category := "販促営業活動", owner := "副店長" }] }

/-- The record `load_tasks` produces for `day500Table`: the offset is
clipped from 500 to `MAX_SCHEDULE_DAYS = 180`. -/
def day500Rec : TaskRec :=
  { Day := 1, startDay := 180, endDay := 180,
    startDate := some 179, endDate := some 179,
    status := "進行中", phase := "Phase3-実装", title := "撮影",
    category := some "販促営業活動", owner := some "副店長" }

/-- A task whose end date is 363 days after the epoch (raw span far beyond
`MAX_SCHEDULE_DAYS = 180`). -/
def longTask : TaskRec :=
  { Day := 1, startDay := 1, endDay := 1,
    startDate := some PROJECT_START, endDate := some (PROJECT_START + 363),
    status := "未着手", phase := "Phase4-仕上げ", title := "オープン準備",
    category := some "営業準備", owner := some "スタッフ" }

/-- An extra C8 fixture: a sheet with no date columns at all and 開始Day = 20. -/
def absentDatesTable : RawTable :=
  { hasDay := false, hasStartDay := true, hasEndDay := false,
    hasStartDate := false, hasEndDate := false,
    hasStatus := true, hasPhase := true, hasTitle := true,
    hasCategory := true, hasOwner := true,
    rows := [{ Day := none, startDay := some 20, endDay := none,
               startDate := none, endDate := none,
               status := "未着手", phase := "Phase2-構築", title := "仕入先選定",
               category := "メニュー計画", owner := "料理長" }] }

/-- The record `load_tasks` produces for `absentDatesTable`. -/
def absentDatesRec : TaskRec :=
  { Day := 1, startDay := 20, endDay := 20,
    startDate := some 19, endDate := some 19,
    status := "未着手", phase := "Phase2-構築", title := "仕入先選定",
    category := some "メニュー計画", owner := some "料理長" }

/-- Two tasks whose sorted order reverses their input order: the second
starts on day 2, the first on day 5. -/
def c1df : List TaskRec :=
  [{ Day := 1, startDay := 6, endDay := 8,
     startDate := some 5, endDate := some 7,
     status := "未着手", phase := "Phase2-構築", title := "什器発注",
     category := some "備品関連", owner := some "副店長" },
   { Day := 1, startDay := 3, endDay := 3,
     startDate := some 2, endDate := some 2,
     status := "完了", phase := "Phase1-設計", title := "物件内覧",
     category := some "物件", owner := some "店長" }]

/-- A task stretching past `BASE_END`: it ends on day 140, beyond the
126-day default window. -/
def c3df : List TaskRec :=
  [{ Day := 1, startDay := 131, endDay := 141,
     startDate := some 130, endDate := some 140,
     status := "進行中", phase := "Phase4-仕上げ", title := "レセプション準備",
     category := some "試飲会レセプション", owner := some "スタッフ" }]

/-- Scenario A/B-style fixture for C2: a done task spanning days 1-3. -/
def doneTask : TaskRec :=
  { Day := 1, startDay := 1, endDay := 3,
    startDate := some 0, endDate := some 2,
    status := "完了", phase := "Phase1-設計", title := "コンセプト決定",
    category := some "開業計画", owner := some "店長" }

/-- The daily row built for `doneTask`. -/
def doneRow : SRow := mkRow (num_days_of [doneTask]) 1 (resolveDaily doneTask)

/-- The daily row built for `invTask`. -/
def invRow : SRow := mkRow (num_days_of [invTask]) 1 (resolveDaily invTask)

theorem clipDay_lb (n : Int) : 1 ≤ clipDay n := by
  simp only [clipDay, MAX_SCHEDULE_DAYS]; omega

theorem clipDay_ub (n : Int) : clipDay n ≤ MAX_SCHEDULE_DAYS := by
  simp only [clipDay, MAX_SCHEDULE_DAYS]; omega

theorem clipDay_mono {a b : Int} (h : a ≤ b) : clipDay a ≤ clipDay b := by
  simp only [clipDay, MAX_SCHEDULE_DAYS]; omega

theorem foldl_max_le_init (l : List Int) : ∀ b : Int, b ≤ l.foldl max b := by
  induction l with
  | nil => intro b; simp
  | cons c l ih =>
    intro b
    calc b ≤ max b c := le_max_left _ _
    _ ≤ l.foldl max (max b c) := ih _

theorem mem_le_foldl_max (l : List Int) : ∀ (b x : Int), x ∈ l → x ≤ l.foldl max b := by
  induction l with
  | nil => intro _ _ h; cases h
  | cons c l ih =>
    intro b x h
    rcases List.mem_cons.mp h with rfl | h
    · calc x ≤ max b x := le_max_right _ _
      _ ≤ l.foldl max (max b x) := foldl_max_le_init _ _
    · exact ih _ _ h

theorem le_colMax {x : Int} {l : List Int} (h : x ∈ l) : x ≤ colMax l := by
  cases l with
  | nil => cases h
  | cons c l =>
    rcases List.mem_cons.mp h with rfl | h
    · exact foldl_max_le_init _ _
    · exact mem_le_foldl_max _ _ _ h

theorem numberedRows_length {β γ : Type} (mk : Nat → β → γ) :
    ∀ (n : Nat) (l : List β), (numberedRows mk n l).length = l.length := by
  intro n l
  induction l generalizing n with
  | nil => rfl
  | cons t ts ih => simp [numberedRows, ih]

theorem mem_numberedRows {β γ : Type} {mk : Nat → β → γ} {r : γ} :
    ∀ {n : Nat} {l : List β}, r ∈ numberedRows mk n l → ∃ k t, t ∈ l ∧ r = mk k t := by
  intro n l
  induction l generalizing n with
  | nil => intro h; cases h
  | cons t ts ih =>
    intro h
    rcases List.mem_cons.mp h with rfl | h
    · exact ⟨n, t, List.mem_cons_self _ _, rfl⟩
    · rcases ih h with ⟨k, u, hu, hr⟩
      exact ⟨k, u, List.mem_cons_of_mem _ hu, hr⟩

theorem numberedRows_map_no {β γ : Type} (mk : Nat → β → γ) (f : γ → Nat)
    (h : ∀ k t, f (mk k t) = k) :
    ∀ (n : Nat) (l : List β), (numberedRows mk n l).map f = List.range' n l.length := by
  intro n l
  induction l generalizing n with
  | nil => rfl
  | cons t ts ih => simp [numberedRows, List.range'_succ, h, ih]

theorem numberedRows_map_fields {β γ δ : Type} (mk : Nat → β → γ) (f : γ → δ)
    (g : β → δ) (h : ∀ k t, f (mk k t) = g t) :
    ∀ (n : Nat) (l : List β), (numberedRows mk n l).map f = l.map g := by
  intro n l
  induction l generalizing n with
  | nil => rfl
  | cons t ts ih => simp [numberedRows, h, ih]

theorem numberedRows_pairwise {β γ : Type} {P : β → β → Prop} {R : γ → γ → Prop}
    (mk : Nat → β → γ) (h : ∀ a b k j, P a b → R (mk k a) (mk j b)) :
    ∀ {n : Nat} {l : List β}, l.Pairwise P → (numberedRows mk n l).Pairwise R := by
  intro n l
  induction l generalizing n with
  | nil => intro _; exact List.Pairwise.nil
  | cons t ts ih =>
    intro hp
    rcases List.pairwise_cons.mp hp with ⟨ht, hts⟩
    refine List.pairwise_cons.mpr ⟨?_, ih hts⟩
    intro r hr
    rcases mem_numberedRows hr with ⟨k, u, hu, rfl⟩
    exact h _ _ _ _ (ht u hu)

theorem countP_range_interval :
    ∀ (n : Nat) (a b : Int), 0 ≤ a → b < (n : Int) →
      (List.range n).countP (fun (i : Nat) => decide (a ≤ (i : Int) ∧ (i : Int) ≤ b)) =
        (b - a + 1).toNat := by
  intro n
  induction n with
  | zero =>
    intro a b ha hb
    simp only [List.range_zero, List.countP_nil]
    omega
  | succ n ih =>
    intro a b ha hb
    rw [List.range_succ, List.countP_append]
    by_cases hbn : b < (n : Int)
    · rw [ih a b ha hbn]
      have : ¬ ((n : Int) ≤ b) := by omega
      simp [List.countP_cons, this]
    · have hbe : b = (n : Int) := by omega
      subst hbe
      have hcong : (List.range n).countP (fun (i : Nat) => decide (a ≤ (i : Int) ∧ (i : Int) ≤ (n : Int))) =
          (List.range n).countP (fun (i : Nat) => decide (a ≤ (i : Int) ∧ (i : Int) ≤ (n : Int) - 1)) := by
        apply List.countP_congr
        intro x hx
        have : x < n := List.mem_range.mp hx
        simp only [decide_eq_true_eq]
        constructor <;> intro hc <;> (constructor <;> omega)
      rw [hcong, ih a ((n : Int) - 1) ha (by omega)]
      by_cases han : a ≤ (n : Int) <;> simp [List.countP_cons, han] <;> omega

theorem resolveDaily_dates_le (t : TaskRec) :
    (resolveDaily t).startDate ≤ (resolveDaily t).endDate := by
  by_cases h : t.endDate.getD (t.startDate.getD PROJECT_START) < t.startDate.getD PROJECT_START
  · simp [resolveDaily, h]
  · simp [resolveDaily, h]; omega

theorem resolveDaily_startDay (t : TaskRec) :
    (resolveDaily t).startDay = clipDay ((resolveDaily t).startDate - PROJECT_START + 1) := rfl

theorem resolveDaily_endDay (t : TaskRec) :
    (resolveDaily t).endDay = clipDay ((resolveDaily t).endDate - PROJECT_START + 1) := rfl

theorem resolveWeekly_startWeek (t : TaskRec) :
    (resolveWeekly t).startWeek = ((resolveWeekly t).startDate - PROJECT_START).fdiv 7 + 1 := rfl

theorem resolveWeekly_endWeek (t : TaskRec) :
    (resolveWeekly t).endWeek = ((resolveWeekly t).endDate - PROJECT_START).fdiv 7 + 1 := rfl

theorem num_days_int (df : List TaskRec) :
    (num_days_of df : Int) = max 127 (max_end_day_of df) := by
  simp only [num_days_of, dynamic_end_of, PROJECT_START, BASE_END]
  omega

theorem dailyLe_trans : ∀ a b c : NTask, dailyLe a b → dailyLe b c → dailyLe a c := by
  intro a b c h1 h2
  rcases h1 with h1 | ⟨e1, h1⟩ <;> rcases h2 with h2 | ⟨e2, h2⟩
  · exact Or.inl (h1.trans h2)
  · exact Or.inl (e2 ▸ h1)
  · exact Or.inl (e1 ▸ h2)
  · refine Or.inr ⟨e1.trans e2, ?_⟩
    rcases h1 with h1 | ⟨f1, h1⟩ <;> rcases h2 with h2 | ⟨f2, h2⟩
    · exact Or.inl (h1.trans h2)
    · exact Or.inl (f2 ▸ h1)
    · exact Or.inl (f1 ▸ h2)
    · exact Or.inr ⟨f1.trans f2, h1.trans h2⟩

theorem dailyLe_total : ∀ a b : NTask, dailyLe a b ∨ dailyLe b a := by
  intro a b
  rcases lt_trichotomy a.startDate b.startDate with h | h | h
  · exact Or.inl (Or.inl h)
  · rcases lt_trichotomy a.phase b.phase with hp | hp | hp
    · exact Or.inl (Or.inr ⟨h, Or.inl hp⟩)
    · rcases le_total a.title b.title with ht | ht
      · exact Or.inl (Or.inr ⟨h, Or.inr ⟨hp, ht⟩⟩)
      · exact Or.inr (Or.inr ⟨h.symm, Or.inr ⟨hp.symm, ht⟩⟩)
    · exact Or.inr (Or.inr ⟨h.symm, Or.inl hp⟩)
  · exact Or.inr (Or.inl h)

theorem weeklyLe_trans : ∀ a b c : WTask, weeklyLe a b → weeklyLe b c → weeklyLe a c := by
  intro a b c h1 h2
  rcases h1 with h1 | ⟨e1, h1⟩ <;> rcases h2 with h2 | ⟨e2, h2⟩
  · exact Or.inl (h1.trans h2)
  · exact Or.inl (e2 ▸ h1)
  · exact Or.inl (e1 ▸ h2)
  · exact Or.inr ⟨e1.trans e2, h1.trans h2⟩

theorem weeklyLe_total : ∀ a b : WTask, weeklyLe a b ∨ weeklyLe b a := by
  intro a b
  rcases lt_trichotomy a.startWeek b.startWeek with h | h | h
  · exact Or.inl (Or.inl h)
  · rcases le_total a.phase b.phase with hp | hp
    · exact Or.inl (Or.inr ⟨h, hp⟩)
    · exact Or.inr (Or.inr ⟨h.symm, hp⟩)
  · exact Or.inr (Or.inl h)

theorem dailyLE_trans_bool :
    ∀ a b c : NTask, dailyLE a b → dailyLE b c → dailyLE a c := by
  intro a b c h1 h2
  simp only [dailyLE, decide_eq_true_eq] at *
  exact dailyLe_trans a b c h1 h2

theorem dailyLE_total_bool : ∀ a b : NTask, dailyLE a b || dailyLE b a := by
  intro a b
  simp only [dailyLE, Bool.or_eq_true, decide_eq_true_eq]
  exact dailyLe_total a b

theorem weeklyLE_trans_bool :
    ∀ a b c : WTask, weeklyLE a b → weeklyLE b c → weeklyLE a c := by
  intro a b c h1 h2
  simp only [weeklyLE, decide_eq_true_eq] at *
  exact weeklyLe_trans a b c h1 h2

theorem weeklyLE_total_bool : ∀ a b : WTask, weeklyLE a b || weeklyLE b a := by
  intro a b
  simp only [weeklyLE, Bool.or_eq_true, decide_eq_true_eq]
  exact weeklyLe_total a b

/-! ## Facts about `normalizeRaw` / `load_tasks` -/

theorem normalizeRaw_bounds (t : RawTable) (r : RawRecord) :
    1 ≤ (normalizeRaw t r).Day ∧ (normalizeRaw t r).Day ≤ MAX_SCHEDULE_DAYS ∧
    1 ≤ (normalizeRaw t r).startDay ∧ (normalizeRaw t r).startDay ≤ MAX_SCHEDULE_DAYS ∧
    1 ≤ (normalizeRaw t r).endDay ∧ (normalizeRaw t r).endDay ≤ MAX_SCHEDULE_DAYS := by
  refine ⟨?_, ?_, ?_, ?_, ?_, ?_⟩ <;>
    first
      | exact clipDay_lb _
      | exact clipDay_ub _

theorem normalizeRaw_derived_startDate (t : RawTable) (r : RawRecord)
    (hs : t.hasStartDate = false) :
    (normalizeRaw t r).startDate = some (PROJECT_START + ((normalizeRaw t r).startDay - 1)) := by
  simp [normalizeRaw, hs]

theorem normalizeRaw_derived_endDate (t : RawTable) (r : RawRecord)
    (he : t.hasEndDate = false) :
    (normalizeRaw t r).endDate = (normalizeRaw t r).startDate := by
  simp [normalizeRaw, he]

theorem load_tasks_ok_elim {t : RawTable} {l : List TaskRec}
    (h : load_tasks t = .ok l) :
    l = [] ∨ l = t.rows.map (normalizeRaw t) := by
  unfold load_tasks at h
  split at h
  · cases h; exact Or.inl rfl
  · split at h
    · exact absurd h (by simp)
    · split at h
      · exact absurd h (by simp)
      · split at h
        · exact absurd h (by simp)
        · cases h; exact Or.inr rfl

/-! ## Evaluation lemmas for one-task inputs

`List.mergeSort` is defined by well-founded recursion, so concrete grids
are evaluated through these equations. -/

theorem build_schedule_table_singleton (t : TaskRec) :
    build_schedule_table [t] = [mkRow (num_days_of [t]) 1 (resolveDaily t)] := by
  simp [build_schedule_table, numberedRows]

theorem build_schedule_table_weekly_singleton (t : TaskRec) :
    build_schedule_table_weekly [t] =
      [mkRowW (week_labels_of [t]) 1 (resolveWeekly t)] := by
  simp [build_schedule_table_weekly, numberedRows]

/-- C9: for the empty task collection, both the daily and the weekly
schedule builders return an empty table rather than raising, and the
list-view numbering produces an empty view. -/
theorem builders_empty_input :
    build_schedule_table [] = [] ∧ build_schedule_table_weekly [] = [] ∧
      list_view [] = [] :=
  ⟨rfl, rfl, rfl⟩

set_option maxRecDepth 40000 in
/-- C10: the weekly builder never clips week indices to the
`MAX_SCHEDULE_DAYS` bound. `longTask` ends 363 days after the epoch
(363 > 180); the weekly grid for it has 52 week columns, beyond
`ceil(180 / 7) = 26`. -/
theorem weekly_window_not_capped :
    MAX_SCHEDULE_DAYS < 363 ∧ longTask.endDate = some (PROJECT_START + 363) ∧
    (build_schedule_table_weekly [longTask]).map (fun r => r.cells.length) = [52] ∧
    (MAX_SCHEDULE_DAYS.toNat + 6) / 7 = 26 ∧ (26 : Nat) < 52 := by
  refine ⟨by decide, rfl, ?_, by decide, by decide⟩
  rw [build_schedule_table_weekly_singleton]; decide

/-- C4 counterexample: on the inverted range start = 2025-12-05 (day 10),
end = 2025-12-01 (day 6), the daily builder (which does coerce) marks
exactly one day, but the weekly builder marks no week at all and its row
still carries end < start — so it is false that "both the daily and the
weekly schedule builders coerce end_date to start_date". -/
theorem weekly_no_end_coercion_cex :
    (build_schedule_table [invTask]).map
        (fun r => r.cells.countP (fun c => decide (c ≠ ""))) = [1] ∧
    (build_schedule_table_weekly [invTask]).map
        (fun r => r.cells.countP (fun c => decide (c.2 ≠ ""))) = [0] ∧
    (build_schedule_table_weekly [invTask]).map (fun r => (r.startDate, r.endDate)) =
      [(10, 6)] := by
  refine ⟨?_, ?_, ?_⟩
  · rw [build_schedule_table_singleton]; decide
  · rw [build_schedule_table_weekly_singleton]; decide
  · rw [build_schedule_table_weekly_singleton]; decide

/-- C4 (amended): the daily schedule builder coerces `end_date` to
`start_date` before computing offsets and markers, so every row of the
daily grid carries dates with `start_date ≤ end_date`; the weekly builder
performs no such coercion (see the counterexample). -/
theorem build_schedule_table_end_coercion (df : List TaskRec) (r : SRow)
    (hr : r ∈ build_schedule_table df) : r.startDate ≤ r.endDate := by
  unfold build_schedule_table at hr
  split at hr
  · cases hr
  · rcases mem_numberedRows hr with ⟨k, t, ht, rfl⟩
    rcases List.mem_map.mp (List.mem_mergeSort.mp ht) with ⟨task, _, rfl⟩
    exact resolveDaily_dates_le task

/-- C4 witness: the daily row built for the inverted-range task satisfies
the coercion invariant. -/
theorem build_schedule_table_end_coercion_witness :
    invRow ∈ build_schedule_table [invTask] ∧ invRow.startDate ≤ invRow.endDate :=
  ⟨by rw [build_schedule_table_singleton]; exact List.mem_singleton.mpr rfl,
   build_schedule_table_end_coercion [invTask] invRow
     (by rw [build_schedule_table_singleton]; exact List.mem_singleton.mpr rfl)⟩

/-- C5 counterexample: a non-empty sheet whose ステータス column is missing
makes `load_tasks` raise `KeyError` (line 326 of `app.py`), so the
normalizer does not tolerate every subset of recognized fields being
absent. -/
theorem load_tasks_missing_status_cex :
    noStatusTable.rows ≠ [] ∧
      load_tasks noStatusTable = Except.error "KeyError: ステータス" :=
  ⟨by decide, rfl⟩

/-- C5 (amended): provided the ステータス, Phase and タスク名 columns are
present, `load_tasks` succeeds on every sheet — any subset of the
remaining recognized columns may be absent and any numeric/date cell may
be unparseable; those degrade to the documented defaults instead of
raising. -/
theorem load_tasks_ok_of_required_columns (t : RawTable)
    (hS : t.hasStatus = true) (hP : t.hasPhase = true) (hT : t.hasTitle = true) :
    (load_tasks t).isOk = true := by
  unfold load_tasks
  split
  · rfl
  · simp [hS, hP, hT, Except.isOk, Except.toBool]

/-- C5 witness: a sheet carrying only the three required columns, whose
single row has every numeric/date cell unparseable and a blank status,
loads successfully. -/
theorem load_tasks_ok_of_required_columns_witness :
    minimalTable.hasStatus = true ∧ minimalTable.hasPhase = true ∧
      minimalTable.hasTitle = true ∧ (load_tasks minimalTable).isOk = true :=
  ⟨rfl, rfl, rfl, load_tasks_ok_of_required_columns minimalTable rfl rfl rfl⟩

/-- C7: every record output by `load_tasks` has `Day`, `開始Day` and
`終了Day` clipped to `[1, MAX_SCHEDULE_DAYS]`, and the daily builder's
recomputed offsets are clipped to the same interval for every record. -/
theorem load_tasks_offsets_clipped (tbl : RawTable) (l : List TaskRec)
    (h : load_tasks tbl = .ok l) :
    (∀ r ∈ l, 1 ≤ r.Day ∧ r.Day ≤ MAX_SCHEDULE_DAYS ∧
        1 ≤ r.startDay ∧ r.startDay ≤ MAX_SCHEDULE_DAYS ∧
        1 ≤ r.endDay ∧ r.endDay ≤ MAX_SCHEDULE_DAYS) ∧
    (∀ task : TaskRec, 1 ≤ (resolveDaily task).startDay ∧
        (resolveDaily task).startDay ≤ MAX_SCHEDULE_DAYS ∧
        1 ≤ (resolveDaily task).endDay ∧
        (resolveDaily task).endDay ≤ MAX_SCHEDULE_DAYS) := by
  constructor
  · intro r hr
    rcases load_tasks_ok_elim h with rfl | rfl
    · cases hr
    · rcases List.mem_map.mp hr with ⟨raw, _, rfl⟩
      exact normalizeRaw_bounds tbl raw
  · intro task
    exact ⟨clipDay_lb _, clipDay_ub _, clipDay_lb _, clipDay_ub _⟩

/-- C7 witness: scenario D — a start offset requested at day 500 loads as
the clipped record `day500Rec` (whose offsets are 180), and the clipping
bounds hold there. -/
theorem load_tasks_offsets_clipped_witness :
    load_tasks day500Table = Except.ok [day500Rec] ∧
    ((∀ r ∈ [day500Rec], 1 ≤ r.Day ∧ r.Day ≤ MAX_SCHEDULE_DAYS ∧
        1 ≤ r.startDay ∧ r.startDay ≤ MAX_SCHEDULE_DAYS ∧
        1 ≤ r.endDay ∧ r.endDay ≤ MAX_SCHEDULE_DAYS) ∧
      (∀ task : TaskRec, 1 ≤ (resolveDaily task).startDay ∧
        (resolveDaily task).startDay ≤ MAX_SCHEDULE_DAYS ∧
        1 ≤ (resolveDaily task).endDay ∧
        (resolveDaily task).endDay ≤ MAX_SCHEDULE_DAYS)) :=
  ⟨rfl, load_tasks_offsets_clipped day500Table [day500Rec] rfl⟩

/-- C8 counterexample: a sheet carrying both 開始日 = the epoch and
開始Day = 5 loads into a record whose offset (5) disagrees with
`(start_date − epoch).days + 1` clipped (= 1): the normalizer does not
reconcile explicit date columns with explicit offset columns. -/
theorem load_tasks_dates_offsets_disagree_cex :
    load_tasks conflictTable = Except.ok [conflictRec] ∧
    conflictRec.startDay = 5 ∧ conflictRec.startDate = some PROJECT_START ∧
    clipDay ((PROJECT_START - PROJECT_START) + 1) = 1 ∧ conflictRec.startDay ≠ 1 :=
  ⟨rfl, rfl, rfl, by decide, by decide⟩

/-- C8 (amended): dates agree with offsets only where the dates are
derived from them — when the 開始日 column is absent, every loaded record
satisfies `開始日 = epoch + (開始Day − 1)` (with `開始Day` already
clipped), and when the 終了日 column is also absent, `終了日` is a copy of
`開始日`; when explicit date columns are present they are parsed
independently of the offset columns and need not agree. -/
theorem load_tasks_dates_follow_offsets (tbl : RawTable) (l : List TaskRec)
    (hs : tbl.hasStartDate = false) (h : load_tasks tbl = .ok l) :
    ∀ r ∈ l, r.startDate = some (PROJECT_START + (r.startDay - 1)) ∧
      (tbl.hasEndDate = false → r.endDate = r.startDate) := by
  intro r hr
  rcases load_tasks_ok_elim h with rfl | rfl
  · cases hr
  · rcases List.mem_map.mp hr with ⟨raw, _, rfl⟩
    exact ⟨normalizeRaw_derived_startDate tbl raw hs,
           fun he => normalizeRaw_derived_endDate tbl raw he⟩

/-- C8 witness: a sheet with no date columns and 開始Day = 20 loads as
`absentDatesRec`, whose start date is day 19 = epoch + (20 − 1). -/
theorem load_tasks_dates_follow_offsets_witness :
    absentDatesTable.hasStartDate = false ∧
    load_tasks absentDatesTable = Except.ok [absentDatesRec] ∧
    ∀ r ∈ [absentDatesRec],
      r.startDate = some (PROJECT_START + (r.startDay - 1)) ∧
      (absentDatesTable.hasEndDate = false → r.endDate = r.startDate) :=
  ⟨rfl, rfl,
   load_tasks_dates_follow_offsets absentDatesTable [absentDatesRec] rfl rfl⟩

theorem numberedRows_map_const {β γ δ : Type} (mk : Nat → β → γ) (g : γ → δ)
    (c : δ) (h : ∀ k t, g (mk k t) = c) :
    ∀ (n : Nat) (l : List β),
      (numberedRows mk n l).map g = List.replicate l.length c := by
  intro n l
  induction l generalizing n with
  | nil => rfl
  | cons t ts ih => simp [numberedRows, List.replicate_succ, h, ih]

/-- C1: for every non-empty collection, the daily builder keeps exactly one
row per input record (the multiset of row fields is a permutation of the
normalized inputs — nothing dropped or duplicated), orders rows ascending
by (start date, phase, title), and numbers them 1..N in that order. -/
theorem build_schedule_table_rows_sorted_numbered (df : List TaskRec) (h : df ≠ []) :
    (build_schedule_table df).length = df.length ∧
    ((build_schedule_table df).map SRow.fields).Perm
      (df.map fun t => NTask.fields (resolveDaily t)) ∧
    (build_schedule_table df).map (·.no) = List.range' 1 df.length ∧
    (build_schedule_table df).Pairwise rowLe := by
  have hne : df.isEmpty = false := by
    cases df with
    | nil => exact absurd rfl h
    | cons a l => rfl
  unfold build_schedule_table
  simp only [hne, Bool.false_eq_true, if_false]
  refine ⟨?_, ?_, ?_, ?_⟩
  · rw [numberedRows_length, List.length_mergeSort, List.length_map]
  · rw [numberedRows_map_fields (fun no t => mkRow (num_days_of df) no t) SRow.fields
      NTask.fields (fun k t => rfl)]
    exact ((List.mergeSort_perm _ _).map _).trans
      (List.map_map NTask.fields resolveDaily df ▸ List.Perm.refl _)
  · rw [numberedRows_map_no (fun no t => mkRow (num_days_of df) no t) (·.no)
      (fun k t => rfl), List.length_mergeSort, List.length_map]
  · have hs : ((df.map resolveDaily).mergeSort dailyLE).Pairwise dailyLe := by
      have := List.sorted_mergeSort dailyLE_trans_bool dailyLE_total_bool (df.map resolveDaily)
      exact this.imp (fun hab => of_decide_eq_true hab)
    refine numberedRows_pairwise _ ?_ hs
    intro a b k j hab
    exact hab

/-- C1 witness: the two-task collection `c1df` (input order opposite to the
sort order). -/
theorem build_schedule_table_rows_sorted_numbered_witness :
    c1df ≠ [] ∧
    ((build_schedule_table c1df).length = c1df.length ∧
     ((build_schedule_table c1df).map SRow.fields).Perm
       (c1df.map fun t => NTask.fields (resolveDaily t)) ∧
     (build_schedule_table c1df).map (·.no) = List.range' 1 c1df.length ∧
     (build_schedule_table c1df).Pairwise rowLe) :=
  ⟨by decide, build_schedule_table_rows_sorted_numbered c1df (by decide)⟩

/-- C3: for every non-empty collection the day columns are the consecutive
dates from the epoch through `max(BASE_END, epoch + (max end offset − 1))`
— `max 127 max_end_day` columns in total (the 127-column default window is
a floor, and a stretching task extends the count to its clipped end
offset), and every row of the daily grid has exactly that many day cells. -/
theorem build_schedule_table_window (df : List TaskRec) (h : df ≠ []) :
    ((date_list_of df).length : Int) = max 127 (max_end_day_of df) ∧
    (date_list_of df).head? = some PROJECT_START ∧
    (date_list_of df).getLast? = some (dynamic_end_of df) ∧
    dynamic_end_of df = max BASE_END (PROJECT_START + (max_end_day_of df - 1)) ∧
    List.Chain' (fun a b => b = a + 1) (date_list_of df) ∧
    (build_schedule_table df).map (fun r => r.cells.length) =
      List.replicate df.length (num_days_of df) := by
  have hne : df.isEmpty = false := by
    cases df with
    | nil => exact absurd rfl h
    | cons a l => rfl
  have hdl : date_list_of df =
      (List.range (num_days_of df)).map fun (i : Nat) => PROJECT_START + (i : Int) := by
    simp [date_list_of, hne]
  have hn : (num_days_of df : Int) = max 127 (max_end_day_of df) := num_days_int df
  have hpos : 0 < num_days_of df := by omega
  refine ⟨?_, ?_, ?_, rfl, ?_, ?_⟩
  · rw [hdl, List.length_map, List.length_range]; exact hn
  · rw [hdl, List.head?_eq_getElem?]
    simp [List.getElem?_range, hpos]
  · have hlast : PROJECT_START + ((num_days_of df - 1 : Nat) : Int) = dynamic_end_of df := by
      simp only [dynamic_end_of, PROJECT_START, BASE_END]
      omega
    rw [hdl, List.getLast?_eq_getElem?]
    simp only [List.length_map, List.length_range]
    rw [List.getElem?_map]
    simp [List.getElem?_range, Nat.sub_lt hpos Nat.one_pos, hlast]
  · rw [hdl, List.chain'_map]
    refine List.chain'_iff_get.mpr ?_
    intro i hi
    simp only [List.length_range] at hi
    simp only [List.get_eq_getElem, List.getElem_range]
    push_cast
    ring
  · unfold build_schedule_table
    simp only [hne, Bool.false_eq_true, if_false]
    rw [numberedRows_map_const (fun no t => mkRow (num_days_of df) no t)
        (fun r => r.cells.length) (num_days_of df) (fun k t => by simp [mkRow]),
      List.length_mergeSort, List.length_map]

/-- C3 witness: the single stretching task of `c3df`. -/
theorem build_schedule_table_window_witness :
    c3df ≠ [] ∧
    (((date_list_of c3df).length : Int) = max 127 (max_end_day_of c3df) ∧
     (date_list_of c3df).head? = some PROJECT_START ∧
     (date_list_of c3df).getLast? = some (dynamic_end_of c3df) ∧
     dynamic_end_of c3df = max BASE_END (PROJECT_START + (max_end_day_of c3df - 1)) ∧
     List.Chain' (fun a b => b = a + 1) (date_list_of c3df) ∧
     (build_schedule_table c3df).map (fun r => r.cells.length) =
       List.replicate c3df.length (num_days_of c3df)) :=
  ⟨by decide, build_schedule_table_window c3df (by decide)⟩

theorem markOf_ne_empty (t : NTask) : markOf t ≠ "" := by
  unfold markOf
  split_ifs <;> decide

/-- C2: in every row of the daily grid, exactly the day cells whose offset
lies in `[開始Day, 終了Day]` (recomputed, clipped, from the row's own
dates) are marked — `終了Day − 開始Day + 1` cells, a number within
`[1, MAX_SCHEDULE_DAYS]` — with the "✔" marker everywhere when the status
is 完了, "●" when the two offsets coincide, and "■" otherwise; all other
cells are empty. -/
theorem build_schedule_table_cell_marks (df : List TaskRec) (r : SRow)
    (hr : r ∈ build_schedule_table df) :
    r.cells.countP (fun c => decide (c ≠ "")) =
      (clipDay (r.endDate - PROJECT_START + 1) -
        clipDay (r.startDate - PROJECT_START + 1) + 1).toNat ∧
    1 ≤ clipDay (r.endDate - PROJECT_START + 1) -
        clipDay (r.startDate - PROJECT_START + 1) + 1 ∧
    clipDay (r.endDate - PROJECT_START + 1) -
        clipDay (r.startDate - PROJECT_START + 1) + 1 ≤ MAX_SCHEDULE_DAYS ∧
    r.cells = (List.range r.cells.length).map (fun (i : Nat) =>
      if clipDay (r.startDate - PROJECT_START + 1) - 1 ≤ (i : Int) ∧
          (i : Int) ≤ clipDay (r.endDate - PROJECT_START + 1) - 1 then
        (if r.status = "完了" then "✔"
         else if clipDay (r.startDate - PROJECT_START + 1) =
             clipDay (r.endDate - PROJECT_START + 1) then "●" else "■")
      else "") := by
  unfold build_schedule_table at hr
  split at hr
  · cases hr
  · rcases mem_numberedRows hr with ⟨k, t, ht, rfl⟩
    rcases List.mem_map.mp (List.mem_mergeSort.mp ht) with ⟨task, htask, rfl⟩
    have hsd : (mkRow (num_days_of df) k (resolveDaily task)).startDate =
        (resolveDaily task).startDate := rfl
    have hed : (mkRow (num_days_of df) k (resolveDaily task)).endDate =
        (resolveDaily task).endDate := rfl
    have hst : (mkRow (num_days_of df) k (resolveDaily task)).status =
        pyStrip (resolveDaily task).status := rfl
    have hcells : (mkRow (num_days_of df) k (resolveDaily task)).cells =
        (List.range (num_days_of df)).map (fun (idx : Nat) =>
          if (resolveDaily task).startDay - 1 ≤ (idx : Int) ∧
              (idx : Int) ≤ (resolveDaily task).endDay - 1 then
            markOf (resolveDaily task) else "") := rfl
    have hclipS : clipDay ((resolveDaily task).startDate - PROJECT_START + 1) =
        (resolveDaily task).startDay := (resolveDaily_startDay task).symm
    have hclipE : clipDay ((resolveDaily task).endDate - PROJECT_START + 1) =
        (resolveDaily task).endDay := (resolveDaily_endDay task).symm
    rw [hcells, hsd, hed, hst, hclipS, hclipE]
    have h1 : 1 ≤ (resolveDaily task).startDay := clipDay_lb _
    have h2 : (resolveDaily task).endDay ≤ MAX_SCHEDULE_DAYS := clipDay_ub _
    have hse : (resolveDaily task).startDay ≤ (resolveDaily task).endDay := by
      rw [resolveDaily_startDay task, resolveDaily_endDay task]
      exact clipDay_mono (by have := resolveDaily_dates_le task; omega)
    have hmem : (resolveDaily task).endDay ∈ (df.map resolveDaily).map (·.endDay) :=
      List.mem_map_of_mem _ (List.mem_map_of_mem _ htask)
    have hmax : (resolveDaily task).endDay ≤ max_end_day_of df :=
      le_min (le_colMax hmem) h2
    have hnd : (num_days_of df : Int) = max 127 (max_end_day_of df) := num_days_int df
    have hb : (resolveDaily task).endDay - 1 < (num_days_of df : Int) := by omega
    have ha : (0 : Int) ≤ (resolveDaily task).startDay - 1 := by omega
    refine ⟨?_, by omega, by omega, ?_⟩
    · rw [List.countP_map]
      have hcong : (List.range (num_days_of df)).countP
            ((fun c => decide (c ≠ "")) ∘ (fun (idx : Nat) =>
              if (resolveDaily task).startDay - 1 ≤ (idx : Int) ∧
                  (idx : Int) ≤ (resolveDaily task).endDay - 1 then
                markOf (resolveDaily task) else "")) =
          (List.range (num_days_of df)).countP (fun (i : Nat) =>
            decide ((resolveDaily task).startDay - 1 ≤ (i : Int) ∧
              (i : Int) ≤ (resolveDaily task).endDay - 1)) := by
        apply List.countP_congr
        intro x hx
        simp only [Function.comp_apply, decide_eq_true_eq]
        split
        next hcond => simp [markOf_ne_empty, hcond]
        next hcond => simp only [ne_eq]; simp; omega
      rw [hcong, countP_range_interval _ _ _ ha hb]
      omega
    · rw [List.length_map, List.length_range]
      rfl

/-- C2 witness: the done 3-day task `doneTask` and its grid row. -/
theorem build_schedule_table_cell_marks_witness :
    doneRow ∈ build_schedule_table [doneTask] ∧
    (doneRow.cells.countP (fun c => decide (c ≠ "")) =
      (clipDay (doneRow.endDate - PROJECT_START + 1) -
        clipDay (doneRow.startDate - PROJECT_START + 1) + 1).toNat ∧
     1 ≤ clipDay (doneRow.endDate - PROJECT_START + 1) -
        clipDay (doneRow.startDate - PROJECT_START + 1) + 1 ∧
     clipDay (doneRow.endDate - PROJECT_START + 1) -
        clipDay (doneRow.startDate - PROJECT_START + 1) + 1 ≤ MAX_SCHEDULE_DAYS ∧
     doneRow.cells = (List.range doneRow.cells.length).map (fun (i : Nat) =>
       if clipDay (doneRow.startDate - PROJECT_START + 1) - 1 ≤ (i : Int) ∧
           (i : Int) ≤ clipDay (doneRow.endDate - PROJECT_START + 1) - 1 then
         (if doneRow.status = "完了" then "✔"
          else if clipDay (doneRow.startDate - PROJECT_START + 1) =
              clipDay (doneRow.endDate - PROJECT_START + 1) then "●" else "■")
       else "")) :=
  ⟨by rw [build_schedule_table_singleton]; exact List.mem_singleton.mpr rfl,
   build_schedule_table_cell_marks [doneTask] doneRow
     (by rw [build_schedule_table_singleton]; exact List.mem_singleton.mpr rfl)⟩

